import Mathlib

/-!
Shallow embedding of the snap-sync dataset verification, profiling
aggregation and regression comparison subsystem of `ethrex-replay`
(`src/snapsync/report.rs`, `src/snapsync.rs`, `src/snapsync_compare.rs`,
`src/snapsync_verify.rs`).

Modelling conventions:
* Rust `f64` timing values are idealized as exact rationals (`ℚ`);
  `f64::sqrt` is abstracted as an explicit square-root parameter
  `sqrtFn : ℚ → ℚ` threaded through the statistics engine, so that both
  the code model and the spec reference apply the same primitive to the
  same operand.
* State roots (`H256`) are modelled as natural numbers; `format!("{:?}")`
  rendering of a root is modelled by an injective `renderRoot`.
* File-system effects are modelled by passing the observed outcomes
  (manifest load result, directory listings, per-chunk read/decode
  results) as explicit inputs.
* Ordered side effects of a session (passes executed, artifacts emitted)
  are recorded in an event list in program order; the fatal outcome of a
  session is the `Except` value surfaced after all recorded events.
-/

/-- Statistics summary of one phase (`PhaseStats` in `snapsync/report.rs`).
All `f64` fields are modelled as `ℚ`. -/
structure PhaseStats where
  median_secs : ℚ
  mean_secs : ℚ
  stddev_secs : ℚ
  p95_secs : ℚ
  p99_secs : ℚ
  min_secs : ℚ
  max_secs : ℚ
deriving DecidableEq

/-- `PhaseStats::from_durations` (`snapsync/report.rs` lines 76-123),
with the `f64::sqrt` primitive abstracted as `sqrtFn`.  Indexing
`sorted[i]` is modelled as `getD i 0`; every index used by the source is
in bounds, so the default is never taken. -/
def PhaseStats.from_durations (sqrtFn : ℚ → ℚ) (durations : List ℚ) : PhaseStats :=
  let sorted := List.insertionSort (· ≤ ·) durations
  let n := sorted.length
  if n = 0 then
    { median_secs := 0, mean_secs := 0, stddev_secs := 0, p95_secs := 0,
      p99_secs := 0, min_secs := 0, max_secs := 0 }
  else
    let median :=
      if n % 2 = 1 then sorted.getD (n / 2) 0
      else (sorted.getD (n / 2 - 1) 0 + sorted.getD (n / 2) 0) / 2
    let mean := sorted.sum / (n : ℚ)
    let stddev :=
      if n < 2 then 0
      else sqrtFn ((sorted.map (fun v => (v - mean) ^ 2)).sum / ((n - 1 : ℕ) : ℚ))
    let percentile := fun (p : ℚ) =>
      sorted.getD (min (round (p / 100 * ((n - 1 : ℕ) : ℚ))).toNat (n - 1)) 0
    { median_secs := median, mean_secs := mean, stddev_secs := stddev,
      p95_secs := percentile 95, p99_secs := percentile 99,
      min_secs := sorted.getD 0 0, max_secs := sorted.getD (n - 1) 0 }

/-- The spec's nearest-rank percentile index: `round(p/100 × (n-1))`
clamped to `[0, n-1]` (computed over `ℤ`, then converted). -/
def specPercentileIdx (p : ℚ) (n : ℕ) : ℕ :=
  (min (max (round (p / 100 * ((n : ℚ) - 1))) 0) ((n : ℤ) - 1)).toNat

/-- Reference statistics definition written from the spec's words
(§4.2): sort ascending; median = middle element (odd) or average of the
two central elements (even); mean = arithmetic average of the inputs;
standard deviation = square root of the sample variance (divide by n-1),
0 when n < 2; percentile by nearest rank; min/max = first/last of the
sorted sequence; empty input gives all-zero fields. -/
def specPhaseStats (sqrtFn : ℚ → ℚ) (l : List ℚ) : PhaseStats :=
  let sorted := l.mergeSort (fun a b => decide (a ≤ b))
  let n := l.length
  if n = 0 then
    { median_secs := 0, mean_secs := 0, stddev_secs := 0, p95_secs := 0,
      p99_secs := 0, min_secs := 0, max_secs := 0 }
  else
    let mean := l.sum / (n : ℚ)
    { median_secs :=
        if n % 2 = 1 then sorted.getD (n / 2) 0
        else (sorted.getD (n / 2 - 1) 0 + sorted.getD (n / 2) 0) / 2,
      mean_secs := mean,
      stddev_secs :=
        if n < 2 then 0
        else sqrtFn ((l.map (fun v => (v - mean) ^ 2)).sum / ((n : ℚ) - 1)),
      p95_secs := sorted.getD (specPercentileIdx 95 n) 0,
      p99_secs := sorted.getD (specPercentileIdx 99 n) 0,
      min_secs := sorted.headD 0,
      max_secs := sorted.getLastD 0 }

lemma mergeSort_rat_sorted (l : List ℚ) :
    List.Sorted (· ≤ ·) (l.mergeSort (fun a b => decide (a ≤ b))) := by
  have h := @List.sorted_mergeSort ℚ (fun a b => decide (a ≤ b))
    (fun a b c hab hbc => by simp_all; linarith)
    (fun a b => by simp [le_total]) l
  exact h.imp (fun hab => by simpa using hab)

lemma insertionSort_eq_mergeSort (l : List ℚ) :
    List.insertionSort (· ≤ ·) l = l.mergeSort (fun a b => decide (a ≤ b)) := by
  apply List.eq_of_perm_of_sorted (r := (· ≤ · : ℚ → ℚ → Prop))
  · exact (List.perm_insertionSort _ l).trans (List.mergeSort_perm l _).symm
  · exact List.sorted_insertionSort _ l
  · exact mergeSort_rat_sorted l

lemma percentileIdx_eq (p : ℚ) (hp : 0 ≤ p) (n : ℕ) (hn : 1 ≤ n) :
    min (round (p / 100 * ((n - 1 : ℕ) : ℚ))).toNat (n - 1) = specPercentileIdx p n := by
  have hcast : ((n - 1 : ℕ) : ℚ) = (n : ℚ) - 1 := by
    rw [Nat.cast_sub hn, Nat.cast_one]
  have hq : 0 ≤ p / 100 * ((n : ℚ) - 1) := by
    apply mul_nonneg (div_nonneg hp (by norm_num))
    have : (1 : ℚ) ≤ (n : ℚ) := by exact_mod_cast hn
    linarith
  have hr : 0 ≤ round (p / 100 * ((n : ℚ) - 1)) := by
    rw [round_eq]
    exact Int.floor_nonneg.mpr (by linarith)
  unfold specPercentileIdx
  rw [hcast]
  omega

lemma getD_zero_eq_headD (l : List ℚ) : l.getD 0 0 = l.headD 0 := by
  cases l <;> rfl

lemma getD_last_eq_getLastD (l : List ℚ) : l.getD (l.length - 1) 0 = l.getLastD 0 := by
  rw [List.getD_eq_getElem?_getD, List.getLastD_eq_getLast?, List.getLast?_eq_getElem?]

/-- C1: `PhaseStats::from_durations` agrees with the spec's reference
statistics definition on every input list, and on the empty list every
field is exactly zero. -/
theorem from_durations_matches_spec (sqrtFn : ℚ → ℚ) (l : List ℚ) :
    PhaseStats.from_durations sqrtFn l = specPhaseStats sqrtFn l ∧
      PhaseStats.from_durations sqrtFn [] =
        { median_secs := 0, mean_secs := 0, stddev_secs := 0, p95_secs := 0,
          p99_secs := 0, min_secs := 0, max_secs := 0 } := by
  constructor
  · have hperm : (l.mergeSort (fun a b => decide (a ≤ b))).Perm l :=
      List.mergeSort_perm l _
    have hlen : (l.mergeSort (fun a b => decide (a ≤ b))).length = l.length :=
      List.length_mergeSort l
    have hsum : (l.mergeSort (fun a b => decide (a ≤ b))).sum = l.sum :=
      hperm.sum_eq
    by_cases h0 : l.length = 0
    · have hnil : l = [] := List.length_eq_zero.mp h0
      subst hnil; rfl
    · have hn : 1 ≤ l.length := Nat.one_le_iff_ne_zero.mpr h0
      have hmap : ∀ f : ℚ → ℚ,
          ((l.mergeSort (fun a b => decide (a ≤ b))).map f).sum = (l.map f).sum :=
        fun f => (hperm.map f).sum_eq
      simp only [PhaseStats.from_durations, specPhaseStats,
        insertionSort_eq_mergeSort, hlen, hsum, hmap, h0, if_false]
      rw [PhaseStats.mk.injEq]
      refine ⟨rfl, rfl, ?_, ?_, ?_, ?_, ?_⟩
      · split_ifs with h2
        · rfl
        · rw [Nat.cast_sub hn, Nat.cast_one]
      · exact congrArg (fun i => (l.mergeSort (fun a b => decide (a ≤ b))).getD i 0)
          (percentileIdx_eq 95 (by norm_num) l.length hn)
      · exact congrArg (fun i => (l.mergeSort (fun a b => decide (a ≤ b))).getD i 0)
          (percentileIdx_eq 99 (by norm_num) l.length hn)
      · exact getD_zero_eq_headD _
      · rw [← hlen]; exact getD_last_eq_getLastD _
  · rfl

/-! ## Report data model (`snapsync/report.rs`) -/

/-- `ToolInfo` in `snapsync/report.rs`. -/
structure ToolInfo where
  name : String
  version : String
  git_sha : String
deriving DecidableEq

/-- `DatasetInfo` in `snapsync/report.rs`. -/
structure DatasetInfo where
  path : String
  manifest_sha256 : String
  chain_id : ℕ
  pivot_block : ℕ
deriving DecidableEq

/-- `RunConfig` in `snapsync/report.rs`. -/
structure RunConfig where
  backend : String
  «repeat» : ℕ
  warmup : ℕ
deriving DecidableEq

/-- `RunEntry` in `snapsync/report.rs`; `f64` seconds modelled as `ℚ`. -/
structure RunEntry where
  index : ℕ
  is_warmup : Bool
  insert_accounts_secs : ℚ
  insert_storages_secs : ℚ
  total_secs : ℚ
  state_root : String
deriving DecidableEq

/-- `PhaseSummary` in `snapsync/report.rs`. -/
structure PhaseSummary where
  insert_accounts : PhaseStats
  insert_storages : PhaseStats
  total : PhaseStats
deriving DecidableEq

/-- `RootValidation` in `snapsync/report.rs`. -/
structure RootValidation where
  computed : String
  expected : String
  «matches» : Bool
deriving DecidableEq

/-- `SnapProfileReportV1` in `snapsync/report.rs`. -/
structure SnapProfileReportV1 where
  schema_version : ℕ
  tool : ToolInfo
  dataset : DatasetInfo
  config : RunConfig
  runs : List RunEntry
  summary : PhaseSummary
  root_validation : RootValidation
deriving DecidableEq

instance {ε α : Type _} [DecidableEq ε] [DecidableEq α] : DecidableEq (Except ε α) :=
  fun x y =>
  match x, y with
  | .ok a, .ok b => if h : a = b then .isTrue (by rw [h]) else .isFalse (by simp [h])
  | .error a, .error b => if h : a = b then .isTrue (by rw [h]) else .isFalse (by simp [h])
  | .ok _, .error _ => .isFalse (by simp)
  | .error _, .ok _ => .isFalse (by simp)

/-! ## Regression comparator (`snapsync_compare.rs`) -/

/-- `CompareOptions` in `snapsync_compare.rs`; paths modelled as strings,
`json_out : Option<PathBuf>` as `Option String`. -/
structure CompareOptions where
  baseline : String
  candidate : String
  regression_threshold_pct : Option ℚ
  fail_on_regression : Bool
  json_out : Option String
  json_stdout : Bool
deriving DecidableEq

/-- `PhaseDelta` in `snapsync_compare.rs`. -/
structure PhaseDelta where
  median_delta_pct : ℚ
  p95_delta_pct : ℚ
deriving DecidableEq

/-- `PhaseDeltaSummary` in `snapsync_compare.rs`. -/
structure PhaseDeltaSummary where
  total : PhaseDelta
  insert_accounts : PhaseDelta
  insert_storages : PhaseDelta
deriving DecidableEq

/-- `ComparisonReport` in `snapsync_compare.rs`. -/
structure ComparisonReport where
  schema_version : ℕ
  baseline_path : String
  candidate_path : String
  compatible : Bool
  deltas : PhaseDeltaSummary
  regression_detected : Bool
  threshold_pct : Option ℚ
deriving DecidableEq

/-- `PhaseDelta::compute` (`snapsync_compare.rs` lines 40-57). -/
def PhaseDelta.compute (baseline_median baseline_p95 candidate_median candidate_p95 : ℚ) :
    PhaseDelta :=
  { median_delta_pct :=
      if baseline_median = 0 then 0
      else ((candidate_median - baseline_median) / baseline_median) * 100,
    p95_delta_pct :=
      if baseline_p95 = 0 then 0
      else ((candidate_p95 - baseline_p95) / baseline_p95) * 100 }

/-- Fatal outcomes of `run_compare`, mirroring the `eyre::eyre!` error
cases with their payloads. -/
inductive CompareError where
  | schemaVersionMismatch (baseline candidate : ℕ)
  | datasetMismatch (baseline candidate : String)
  | backendMismatch (baseline candidate : String)
  | regressionDetected
deriving DecidableEq

/-- Observable outcome of `run_compare`: the JSON artifact written to the
requested path (if any), the JSON printed to stdout (if any), and the
function's return value.  The source writes/prints the report strictly
before returning the fail-on-regression error, and returns the
compatibility errors before building any report. -/
structure CompareOutcome where
  written : Option (String × ComparisonReport)
  printed : Option ComparisonReport
  result : Except CompareError Unit
deriving DecidableEq

/-- `run_compare` (`snapsync_compare.rs` lines 59-165), with file loading
abstracted: the function receives the two already-loaded reports.
Terminal table printing is omitted (pure display). -/
def run_compare (opts : CompareOptions) (baseline candidate : SnapProfileReportV1) :
    CompareOutcome :=
  if baseline.schema_version ≠ candidate.schema_version then
    { written := none, printed := none,
      result := .error (.schemaVersionMismatch baseline.schema_version candidate.schema_version) }
  else if baseline.dataset.manifest_sha256 ≠ candidate.dataset.manifest_sha256 then
    { written := none, printed := none,
      result := .error (.datasetMismatch baseline.dataset.manifest_sha256
        candidate.dataset.manifest_sha256) }
  else if baseline.config.backend ≠ candidate.config.backend then
    { written := none, printed := none,
      result := .error (.backendMismatch baseline.config.backend candidate.config.backend) }
  else
    let deltas : PhaseDeltaSummary :=
      { total := PhaseDelta.compute baseline.summary.total.median_secs
          baseline.summary.total.p95_secs candidate.summary.total.median_secs
          candidate.summary.total.p95_secs,
        insert_accounts := PhaseDelta.compute baseline.summary.insert_accounts.median_secs
          baseline.summary.insert_accounts.p95_secs candidate.summary.insert_accounts.median_secs
          candidate.summary.insert_accounts.p95_secs,
        insert_storages := PhaseDelta.compute baseline.summary.insert_storages.median_secs
          baseline.summary.insert_storages.p95_secs candidate.summary.insert_storages.median_secs
          candidate.summary.insert_storages.p95_secs }
    let regression_detected : Bool :=
      (opts.regression_threshold_pct.map
        (fun threshold => decide (deltas.total.median_delta_pct > threshold))).getD false
    let report : ComparisonReport :=
      { schema_version := 1,
        baseline_path := opts.baseline,
        candidate_path := opts.candidate,
        compatible := true,
        deltas := deltas,
        regression_detected := regression_detected,
        threshold_pct := opts.regression_threshold_pct }
    { written := opts.json_out.map (fun p => (p, report)),
      printed := if opts.json_stdout then some report else none,
      result :=
        if opts.fail_on_regression && regression_detected then .error .regressionDetected
        else .ok () }

/-- A report shaped like the comparator test's `make_report`: phase stats
whose total median and p95 are the two given values. -/
def exampleReport (total_median total_p95 : ℚ) (manifest_sha backend : String) :
    SnapProfileReportV1 :=
  let phase := fun (median p95 : ℚ) =>
    ({ median_secs := median, mean_secs := median, stddev_secs := 0, p95_secs := p95,
       p99_secs := p95, min_secs := median * (9/10), max_secs := p95 * (11/10) } : PhaseStats)
  { schema_version := 1,
    tool := { name := "ethrex-replay", version := "0.1.0", git_sha := "abc123" },
    dataset := { path := "/tmp/test", manifest_sha256 := manifest_sha,
                 chain_id := 1, pivot_block := 100 },
    config := { backend := backend, «repeat» := 5, warmup := 1 },
    runs := [],
    summary := { insert_accounts := phase (total_median * (1/10)) (total_p95 * (1/10)),
                 insert_storages := phase (total_median * (9/10)) (total_p95 * (9/10)),
                 total := phase total_median total_p95 },
    root_validation := { computed := "0x1234", expected := "0x1234", «matches» := true } }

/-- C2: the comparator's per-phase delta is `(candidate - baseline) /
baseline * 100` and exactly `0` when the baseline value is `0`; for
compatible reports the emitted comparison report flags a regression
exactly when a threshold was supplied and the total phase's median delta
strictly exceeds it; and on the concrete pair with baseline total median
100 and candidate total median 120 the total median delta is `+20`,
`fail_on_regression` with threshold 5 makes the call fail, and threshold
25 lets it succeed. -/
theorem compare_delta_formula_and_regression_gate :
    (∀ bm bp cm cp : ℚ,
      (PhaseDelta.compute bm bp cm cp).median_delta_pct =
        (if bm = 0 then 0 else (cm - bm) / bm * 100) ∧
      (PhaseDelta.compute bm bp cm cp).p95_delta_pct =
        (if bp = 0 then 0 else (cp - bp) / bp * 100)) ∧
    (∀ (opts : CompareOptions) (b c : SnapProfileReportV1) (r : ComparisonReport),
      b.schema_version = c.schema_version →
      b.dataset.manifest_sha256 = c.dataset.manifest_sha256 →
      b.config.backend = c.config.backend →
      (run_compare opts b c).printed = some r →
      (r.regression_detected = true ↔
        ∃ t, opts.regression_threshold_pct = some t ∧
          t < (PhaseDelta.compute b.summary.total.median_secs b.summary.total.p95_secs
            c.summary.total.median_secs c.summary.total.p95_secs).median_delta_pct)) ∧
    ((PhaseDelta.compute 100 110 120 130).median_delta_pct = 20 ∧
      (run_compare
        { baseline := "baseline.json", candidate := "candidate.json",
          regression_threshold_pct := some 5, fail_on_regression := true,
          json_out := none, json_stdout := false }
        (exampleReport 100 110 "sha256abc" "rocksdb")
        (exampleReport 120 130 "sha256abc" "rocksdb")).result =
        .error .regressionDetected ∧
      (run_compare
        { baseline := "baseline.json", candidate := "candidate.json",
          regression_threshold_pct := some 25, fail_on_regression := true,
          json_out := none, json_stdout := false }
        (exampleReport 100 110 "sha256abc" "rocksdb")
        (exampleReport 120 130 "sha256abc" "rocksdb")).result = .ok ()) := by
  refine ⟨fun bm bp cm cp => ⟨rfl, rfl⟩, ?_, ?_, ?_, ?_⟩
  · intro opts b c r h1 h2 h3 hpr
    simp only [run_compare, h1, h2, h3, ne_eq, not_true_eq_false, if_false] at hpr
    by_cases hjs : opts.json_stdout
    · simp only [hjs, if_true, Option.some.injEq] at hpr
      subst hpr
      rcases hth : opts.regression_threshold_pct with _ | t
      · simp [hth]
      · simp [hth, decide_eq_true_iff]
    · simp [hjs] at hpr
  · norm_num [PhaseDelta.compute]
  · norm_num [run_compare, exampleReport, PhaseDelta.compute]
  · norm_num [run_compare, exampleReport, PhaseDelta.compute]

/-- C5: if the two loaded reports differ in schema version, dataset
manifest hash, or backend, the comparison fails fatally with the
corresponding mismatch error: nothing is written, nothing is printed, and
no comparison report is produced. -/
theorem incompatible_reports_fail_fatally
    (opts : CompareOptions) (b c : SnapProfileReportV1)
    (h : b.schema_version ≠ c.schema_version ∨
      b.dataset.manifest_sha256 ≠ c.dataset.manifest_sha256 ∨
      b.config.backend ≠ c.config.backend) :
    (run_compare opts b c).written = none ∧ (run_compare opts b c).printed = none ∧
      ((run_compare opts b c).result =
          .error (.schemaVersionMismatch b.schema_version c.schema_version) ∨
        (run_compare opts b c).result =
          .error (.datasetMismatch b.dataset.manifest_sha256 c.dataset.manifest_sha256) ∨
        (run_compare opts b c).result =
          .error (.backendMismatch b.config.backend c.config.backend)) := by
  rcases h with h | h | h
  · simp only [run_compare, if_pos h]
    exact ⟨trivial, trivial, Or.inl trivial⟩
  · by_cases h1 : b.schema_version ≠ c.schema_version
    · simp only [run_compare, if_pos h1]
      exact ⟨trivial, trivial, Or.inl trivial⟩
    · simp only [run_compare, if_neg h1, if_pos h]
      exact ⟨trivial, trivial, Or.inr (Or.inl trivial)⟩
  · by_cases h1 : b.schema_version ≠ c.schema_version
    · simp only [run_compare, if_pos h1]
      exact ⟨trivial, trivial, Or.inl trivial⟩
    · by_cases h2 : b.dataset.manifest_sha256 ≠ c.dataset.manifest_sha256
      · simp only [run_compare, if_neg h1, if_pos h2]
        exact ⟨trivial, trivial, Or.inr (Or.inl trivial)⟩
      · simp only [run_compare, if_neg h1, if_neg h2, if_pos h]
        exact ⟨trivial, trivial, Or.inr (Or.inr trivial)⟩

/-- Witness for C5 at a concrete input: two reports that agree everywhere
except the manifest hash. -/
theorem incompatible_reports_fail_fatally_witness :
    (run_compare
        { baseline := "a.json", candidate := "b.json", regression_threshold_pct := none,
          fail_on_regression := false, json_out := none, json_stdout := false }
        (exampleReport 100 110 "sha_aaa" "rocksdb")
        (exampleReport 100 110 "sha_bbb" "rocksdb")).written = none ∧
      (run_compare
        { baseline := "a.json", candidate := "b.json", regression_threshold_pct := none,
          fail_on_regression := false, json_out := none, json_stdout := false }
        (exampleReport 100 110 "sha_aaa" "rocksdb")
        (exampleReport 100 110 "sha_bbb" "rocksdb")).printed = none ∧
      ((run_compare
        { baseline := "a.json", candidate := "b.json", regression_threshold_pct := none,
          fail_on_regression := false, json_out := none, json_stdout := false }
        (exampleReport 100 110 "sha_aaa" "rocksdb")
        (exampleReport 100 110 "sha_bbb" "rocksdb")).result =
          .error (.schemaVersionMismatch (exampleReport 100 110 "sha_aaa" "rocksdb").schema_version
            (exampleReport 100 110 "sha_bbb" "rocksdb").schema_version) ∨
        (run_compare
        { baseline := "a.json", candidate := "b.json", regression_threshold_pct := none,
          fail_on_regression := false, json_out := none, json_stdout := false }
        (exampleReport 100 110 "sha_aaa" "rocksdb")
        (exampleReport 100 110 "sha_bbb" "rocksdb")).result =
          .error (.datasetMismatch
            (exampleReport 100 110 "sha_aaa" "rocksdb").dataset.manifest_sha256
            (exampleReport 100 110 "sha_bbb" "rocksdb").dataset.manifest_sha256) ∨
        (run_compare
        { baseline := "a.json", candidate := "b.json", regression_threshold_pct := none,
          fail_on_regression := false, json_out := none, json_stdout := false }
        (exampleReport 100 110 "sha_aaa" "rocksdb")
        (exampleReport 100 110 "sha_bbb" "rocksdb")).result =
          .error (.backendMismatch (exampleReport 100 110 "sha_aaa" "rocksdb").config.backend
            (exampleReport 100 110 "sha_bbb" "rocksdb").config.backend)) :=
  incompatible_reports_fail_fatally _ _ _
    (Or.inr (Or.inl (by simp [exampleReport])))

/-! ## Dataset verifier (`snapsync_verify.rs`) -/

/-- `VerifyError` in `snapsync_verify.rs`. -/
structure VerifyError where
  file : String
  message : String
deriving DecidableEq

/-- `DatasetStats` in `snapsync_verify.rs` (its `Default` is all zeros). -/
structure DatasetStats where
  account_chunks : ℕ
  storage_chunks : ℕ
  total_accounts : ℕ
  total_storage_slots : ℕ
deriving DecidableEq

/-- `VerifyResult` in `snapsync_verify.rs`. -/
structure VerifyResult where
  schema_version : ℕ
  valid : Bool
  strict : Bool
  errors : List VerifyError
  stats : DatasetStats
deriving DecidableEq

/-- Manifest `paths` block (see `load_manifest`'s schema in spec §6). -/
structure ManifestPaths where
  account_state_snapshots_dir : String
  account_storages_snapshots_dir : String
deriving DecidableEq

/-- Manifest pivot checkpoint (spec §6); hashes/roots modelled as `ℕ`. -/
structure PivotInfo where
  number : ℕ
  hash : ℕ
  state_root : ℕ
  timestamp : ℕ
deriving DecidableEq

/-- The dataset manifest (spec §6 schema, consumed via `load_manifest`). -/
structure Manifest where
  version : ℕ
  chain_id : ℕ
  pivot : PivotInfo
  post_accounts_insert_state_root : ℕ
  paths : ManifestPaths
deriving DecidableEq

/-- Outcome of `std::fs::read` followed by RLP decode for one chunk, as
observed by the verifier; `α` summarizes the decoded payload. -/
inductive ChunkOutcome (α : Type) where
  | readError (msg : String)
  | decodeError (msg : String)
  | ok (val : α)
deriving DecidableEq

/-- One file of a snapshot directory: its name and, for chunks that get
decoded in strict mode, the observed read/decode outcome. -/
structure ChunkFile (α : Type) where
  name : String
  outcome : ChunkOutcome α
deriving DecidableEq

/-- A snapshot directory as `std::fs` presents it to the verifier. -/
inductive DirContents (α : Type) where
  | missing
  | readFail (msg : String)
  | found (files : List (ChunkFile α))
deriving DecidableEq

/-- A dataset as the verifier observes it through the file system: the
dataset path, the result of `load_manifest`, and the two snapshot
directories.  An account chunk decodes to a `Vec<(H256, AccountState)>`,
modelled by its length; a storage chunk decodes to a
`Vec<(Vec<H256>, Vec<(H256, U256)>)>`, modelled by the per-entry slot
counts. -/
structure VerifyEnv where
  path : String
  manifestLoad : Except String Manifest
  accDir : DirContents ℕ
  storDir : DirContents (List ℕ)

/-- Rust `str::starts_with`, computed on the character lists. -/
def strStartsWith (s pfx : String) : Bool := pfx.data.isPrefixOf s.data

/-- `check_dir_and_list_chunks` (`snapsync_verify.rs` lines 186-226): the
errors contributed and the list of files whose name starts with the
expected chunk name stem. -/
def check_dir_and_list_chunks {α : Type} (dir : DirContents α) (dirPath pfx : String) :
    List VerifyError × List (ChunkFile α) :=
  match dir with
  | .missing => ([⟨dirPath, "Directory does not exist"⟩], [])
  | .readFail e => ([⟨dirPath, "Failed to read directory: " ++ e⟩], [])
  | .found fs =>
    let entries := fs.filter (fun c => strStartsWith c.name pfx)
    if entries.isEmpty then
      ([⟨dirPath, "Directory is empty (no matching chunk files)"⟩], entries)
    else ([], entries)

/-- The substring of `s` after its last `.`, the whole string when it has
none: Rust `s.rsplit('.').next()` (the pattern `prefix.rlp.<index>`). -/
def trailingSegment (s : String) : String :=
  ⟨(s.data.reverse.takeWhile (fun c => c ≠ '.')).reverse⟩

/-- Digit accumulation for `usize::from_str`. -/
def parseDigitsAux : List Char → ℕ → Option ℕ
  | [], acc => some acc
  | c :: rest, acc =>
      if '0' ≤ c ∧ c ≤ '9' then parseDigitsAux rest (acc * 10 + (c.toNat - '0'.toNat))
      else none

/-- Rust `usize::from_str`: an optional leading `+`, then one or more
ASCII digits, rejecting values that overflow a 64-bit `usize`. -/
def parse_usize (s : String) : Option ℕ :=
  let t := match s.data with
    | '+' :: rest => rest
    | l => l
  if t = [] then none
  else match parseDigitsAux t 0 with
    | some v => if v < 2 ^ 64 then some v else none
    | none => none

/-- The chunk index parsed from one chunk filename. -/
def chunkIndexOf (name : String) : Option ℕ := parse_usize (trailingSegment name)

/-- Rust `{:?}` rendering of a `Vec<usize>`, e.g. `[0, 2]`. -/
def fmtNatList (l : List ℕ) : String :=
  "[" ++ String.intercalate ", " (l.map toString) ++ "]"

/-- Rust `Vec::dedup`: remove consecutive duplicates. -/
def dedup_consecutive : List ℕ → List ℕ
  | [] => []
  | [a] => [a]
  | a :: b :: rest =>
    if a = b then dedup_consecutive (b :: rest)
    else a :: dedup_consecutive (b :: rest)

/-- The indices parsed from a directory's chunk filenames, in file
order (the source collects them in its single loop over the names; the
parse failures of the same loop are the `filterMap` in
`check_chunk_indices`). -/
def parsedIndices (chunks : List String) : List ℕ := chunks.filterMap chunkIndexOf

/-- The source's `indices` vector after `sort()` and `dedup()`. -/
def sortedDeduped (chunks : List String) : List ℕ :=
  dedup_consecutive (List.insertionSort (· ≤ ·) (parsedIndices chunks))

/-- `check_chunk_indices` (`snapsync_verify.rs` lines 327-364) on the
directory's chunk file names: per-name parse errors, then the duplicate
check (`indices.len() != chunks.len()` after sort+dedup), then the
contiguity check against `0..indices.len()`. -/
def check_chunk_indices (chunks : List String) (dir_name : String) : List VerifyError :=
  (chunks.filterMap (fun name =>
    if (chunkIndexOf name).isNone then
      some ⟨name, "Invalid chunk index in filename: " ++ name⟩
    else none)) ++
  (if (sortedDeduped chunks).length ≠ chunks.length then
    [⟨dir_name, "Duplicate chunk indices found"⟩]
  else []) ++
  (if ¬ (sortedDeduped chunks).isEmpty ∧
      sortedDeduped chunks ≠ List.range (sortedDeduped chunks).length then
    [⟨dir_name, "Chunk indices are not contiguous from 0: " ++ fmtNatList (sortedDeduped chunks)⟩]
  else [])

/-- `acc_dir_name` in `run_verify`/`verify_dataset`: manifest path or the
default name. -/
def VerifyEnv.acc_dir_name (ds : VerifyEnv) : String :=
  match ds.manifestLoad with
  | .ok m => m.paths.account_state_snapshots_dir
  | .error _ => "account_state_snapshots"

/-- `storage_dir_name` in `run_verify`/`verify_dataset`. -/
def VerifyEnv.storage_dir_name (ds : VerifyEnv) : String :=
  match ds.manifestLoad with
  | .ok m => m.paths.account_storages_snapshots_dir
  | .error _ => "account_storages_snapshots"

/-- The account directory check: errors and matching chunk files. -/
def VerifyEnv.acc_listing (ds : VerifyEnv) : List VerifyError × List (ChunkFile ℕ) :=
  check_dir_and_list_chunks ds.accDir (ds.path ++ "/" ++ ds.acc_dir_name)
    "account_state_chunk.rlp"

/-- The storage directory check: errors and matching chunk files. -/
def VerifyEnv.stor_listing (ds : VerifyEnv) : List VerifyError × List (ChunkFile (List ℕ)) :=
  check_dir_and_list_chunks ds.storDir (ds.path ++ "/" ++ ds.storage_dir_name)
    "account_storages_chunk.rlp"

/-- `verify_dataset` (`snapsync_verify.rs` lines 231-324), the verifier
core also inlined in `run_verify` (lines 40-142; `run_verify` adds
terminal/JSON output and returns a non-zero status when the result is
invalid).  Errors are accumulated in the source's push order. -/
def verify_dataset (ds : VerifyEnv) (strict : Bool) : VerifyResult :=
  let manifestErrors : List VerifyError :=
    match ds.manifestLoad with
    | .ok _ => []
    | .error e => [⟨"manifest.json", "Failed to load manifest: " ++ e⟩]
  let versionErrors : List VerifyError :=
    match ds.manifestLoad with
    | .ok m =>
      if m.version ≠ 1 then
        [⟨"manifest.json",
          "Unsupported manifest version: " ++ toString m.version ++ " (expected 1)"⟩]
      else []
    | .error _ => []
  let acc_chunks := ds.acc_listing.2
  let storage_chunks := ds.stor_listing.2
  let idxErrors :=
    check_chunk_indices (acc_chunks.map ChunkFile.name) ds.acc_dir_name ++
      check_chunk_indices (storage_chunks.map ChunkFile.name) ds.storage_dir_name
  let strictErrors : List VerifyError :=
    if strict then
      acc_chunks.filterMap (fun c =>
        match c.outcome with
        | .readError e => some ⟨ds.path ++ "/" ++ ds.acc_dir_name ++ "/" ++ c.name,
            "Failed to read file: " ++ e⟩
        | .decodeError e => some ⟨ds.path ++ "/" ++ ds.acc_dir_name ++ "/" ++ c.name,
            "Failed to decode account RLP: " ++ e⟩
        | .ok _ => none) ++
      storage_chunks.filterMap (fun c =>
        match c.outcome with
        | .readError e => some ⟨ds.path ++ "/" ++ ds.storage_dir_name ++ "/" ++ c.name,
            "Failed to read file: " ++ e⟩
        | .decodeError e => some ⟨ds.path ++ "/" ++ ds.storage_dir_name ++ "/" ++ c.name,
            "Failed to decode storage RLP: " ++ e⟩
        | .ok _ => none)
    else []
  let total_accounts :=
    if strict then
      (acc_chunks.filterMap (fun c =>
        match c.outcome with
        | .ok n => some n
        | _ => none)).sum
    else 0
  let total_storage_slots :=
    if strict then
      (storage_chunks.filterMap (fun c =>
        match c.outcome with
        | .ok slots => some slots.sum
        | _ => none)).sum
    else 0
  let errors := manifestErrors ++ versionErrors ++ ds.acc_listing.1 ++ ds.stor_listing.1 ++
    idxErrors ++ strictErrors
  { schema_version := 1,
    valid := errors.isEmpty,
    strict := strict,
    errors := errors,
    stats := { account_chunks := acc_chunks.length, storage_chunks := storage_chunks.length,
               total_accounts := total_accounts,
               total_storage_slots := total_storage_slots } }

/-- A strict-mode dataset with one decodable account chunk (3 accounts),
one account chunk that fails to decode, and one storage chunk (2 slots). -/
def mixedStrictEnv : VerifyEnv :=
  { path := "ds",
    manifestLoad := .ok
      { version := 1, chain_id := 1, pivot := ⟨1, 2, 3, 4⟩,
        post_accounts_insert_state_root := 5,
        paths := ⟨"account_state_snapshots", "account_storages_snapshots"⟩ },
    accDir := .found [⟨"account_state_chunk.rlp.0", .ok 3⟩,
      ⟨"account_state_chunk.rlp.1", .decodeError "bad"⟩],
    storDir := .found [⟨"account_storages_chunk.rlp.0", .ok [1, 1]⟩] }

set_option maxRecDepth 4000 in
/-- C7: a verify result is valid exactly when its error list is empty; in
non-strict mode no chunk is decoded so both totals are zero; in strict
mode the totals accumulate the counts of every successfully decoded
chunk, which the concrete `mixedStrictEnv` shows survives another chunk's
decode failure. -/
theorem verify_result_validity_and_counts (ds : VerifyEnv) (strict : Bool) :
    ((verify_dataset ds strict).valid = true ↔ (verify_dataset ds strict).errors = []) ∧
    ((verify_dataset ds false).stats.total_accounts = 0 ∧
      (verify_dataset ds false).stats.total_storage_slots = 0) ∧
    ((verify_dataset ds true).stats.total_accounts =
        (ds.acc_listing.2.filterMap (fun c =>
          match c.outcome with
          | .ok n => some n
          | _ => none)).sum ∧
      (verify_dataset ds true).stats.total_storage_slots =
        (ds.stor_listing.2.filterMap (fun c =>
          match c.outcome with
          | .ok slots => some slots.sum
          | _ => none)).sum) ∧
    ((verify_dataset mixedStrictEnv true).stats.total_accounts = 3 ∧
      (verify_dataset mixedStrictEnv true).stats.total_storage_slots = 2 ∧
      (verify_dataset mixedStrictEnv true).valid = false) := by
  refine ⟨?_, ⟨rfl, rfl⟩, ⟨rfl, rfl⟩, ?_, ?_, ?_⟩
  · simp only [verify_dataset]
    exact List.isEmpty_iff
  · decide
  · decide
  · decide

lemma append_ne_append_of_head_ne (a b s t : String) (ha : a.data ≠ [])
    (hb : b.data ≠ []) (h : a.data.head? ≠ b.data.head?) : a ++ s ≠ b ++ t := by
  intro he
  have hd := congrArg String.data he
  rw [String.data_append, String.data_append] at hd
  apply h
  rw [← @List.head?_append_of_ne_nil _ a.data s.data ha, hd,
    List.head?_append_of_ne_nil _ hb]

lemma invalid_ne_dup (name : String) :
    "Invalid chunk index in filename: " ++ name ≠ "Duplicate chunk indices found" := by
  have h1 : ("Invalid chunk index in filename: ").length = 33 := by decide
  have h2 : ("Duplicate chunk indices found").length = 29 := by decide
  intro he
  have hl := congrArg String.length he
  rw [String.length_append, h1, h2] at hl
  omega

lemma contig_ne_dup (s : String) :
    "Chunk indices are not contiguous from 0: " ++ s ≠
      "Duplicate chunk indices found" := by
  have h1 : ("Chunk indices are not contiguous from 0: ").length = 41 := by decide
  have h2 : ("Duplicate chunk indices found").length = 29 := by decide
  intro he
  have hl := congrArg String.length he
  rw [String.length_append, h1, h2] at hl
  omega

lemma invalid_ne_contig (name s : String) :
    "Invalid chunk index in filename: " ++ name ≠
      "Chunk indices are not contiguous from 0: " ++ s := by
  apply append_ne_append_of_head_ne <;> decide

set_option maxRecDepth 4000 in
/-- C6 (amended): the chunk-index check reports the duplicate-indices
error exactly when the sorted, deduplicated parsed index list is shorter
than the chunk file list — i.e. when the parsed indices contain a
duplicate, but also when any filename's suffix fails to parse; the other
clauses of the claim hold as stated: each unparsable suffix is reported
individually, the not-contiguous error (listing the actual index set) is
reported exactly when the deduplicated sorted set is nonempty and differs
from the contiguous range `0..count`, and indices {0, 2} yield a
not-contiguous error listing `[0, 2]`. -/
theorem check_chunk_indices_reports (chunks : List String) (dir_name : String) :
    (∀ name ∈ chunks, chunkIndexOf name = none →
      (⟨name, "Invalid chunk index in filename: " ++ name⟩ : VerifyError) ∈
        check_chunk_indices chunks dir_name) ∧
    ((⟨dir_name, "Duplicate chunk indices found"⟩ : VerifyError) ∈
        check_chunk_indices chunks dir_name ↔
      (sortedDeduped chunks).length ≠ chunks.length) ∧
    ((⟨dir_name, "Chunk indices are not contiguous from 0: " ++
          fmtNatList (sortedDeduped chunks)⟩ : VerifyError) ∈
        check_chunk_indices chunks dir_name ↔
      (sortedDeduped chunks ≠ [] ∧
        sortedDeduped chunks ≠ List.range (sortedDeduped chunks).length)) ∧
    check_chunk_indices ["account_state_chunk.rlp.0", "account_state_chunk.rlp.2"]
        "account_state_snapshots" =
      [⟨"account_state_snapshots",
        "Chunk indices are not contiguous from 0: [0, 2]"⟩] := by
  refine ⟨?_, ⟨?_, ?_⟩, ⟨?_, ?_⟩, ?_⟩
  · intro name hmem hnone
    unfold check_chunk_indices
    apply List.mem_append_left
    apply List.mem_append_left
    exact List.mem_filterMap.mpr ⟨name, hmem, by simp [hnone]⟩
  · intro hmem
    unfold check_chunk_indices at hmem
    rcases List.mem_append.mp hmem with hmem | hmem
    · rcases List.mem_append.mp hmem with hmem | hmem
      · rcases List.mem_filterMap.mp hmem with ⟨name, _, hf⟩
        by_cases hc : (chunkIndexOf name).isNone
        · rw [if_pos hc, Option.some.injEq] at hf
          exact absurd (congrArg VerifyError.message hf) (invalid_ne_dup name)
        · rw [if_neg hc] at hf
          exact absurd hf (by simp)
      · by_cases hcond : (sortedDeduped chunks).length ≠ chunks.length
        · exact hcond
        · rw [if_neg hcond] at hmem
          simp at hmem
    · split_ifs at hmem with hcond
      · simp only [List.mem_singleton] at hmem
        exact absurd (congrArg VerifyError.message hmem).symm
          (contig_ne_dup (fmtNatList (sortedDeduped chunks)))
      · simp at hmem
  · intro hcond
    unfold check_chunk_indices
    apply List.mem_append_left
    apply List.mem_append_right
    rw [if_pos hcond]
    exact List.mem_singleton_self _
  · intro hmem
    unfold check_chunk_indices at hmem
    rcases List.mem_append.mp hmem with hmem | hmem
    · rcases List.mem_append.mp hmem with hmem | hmem
      · rcases List.mem_filterMap.mp hmem with ⟨name, _, hf⟩
        by_cases hc : (chunkIndexOf name).isNone
        · rw [if_pos hc, Option.some.injEq] at hf
          exact absurd (congrArg VerifyError.message hf)
            (invalid_ne_contig name (fmtNatList (sortedDeduped chunks)))
        · rw [if_neg hc] at hf
          exact absurd hf (by simp)
      · split_ifs at hmem with hcond
        · simp only [List.mem_singleton] at hmem
          exact absurd (congrArg VerifyError.message hmem)
            (contig_ne_dup (fmtNatList (sortedDeduped chunks)))
        · simp at hmem
    · split_ifs at hmem with hcond
      · constructor
        · intro hnil
          rw [hnil] at hcond
          simp at hcond
        · exact hcond.2
      · simp at hmem
  · intro h
    unfold check_chunk_indices
    apply List.mem_append_right
    have hcond : ¬ (sortedDeduped chunks).isEmpty ∧
        sortedDeduped chunks ≠ List.range (sortedDeduped chunks).length := by
      refine ⟨?_, h.2⟩
      rw [List.isEmpty_iff]
      exact h.1
    rw [if_pos hcond]
    exact List.mem_singleton_self _
  · decide

set_option maxRecDepth 4000 in
/-- C6 counterexample: with the single chunk file
`account_state_chunk.rlp.zz` (unparsable suffix, so the parsed index list
is empty and in particular has no duplicate) the checker still reports
"Duplicate chunk indices found": the error is keyed to
`indices.len() != chunks.len()` after `dedup`, not to an actual
duplicate among the parsed indices. -/
theorem duplicate_error_without_duplicate :
    (⟨"account_state_snapshots", "Duplicate chunk indices found"⟩ : VerifyError) ∈
      check_chunk_indices ["account_state_chunk.rlp.zz"] "account_state_snapshots" ∧
    (parsedIndices ["account_state_chunk.rlp.zz"]).Nodup := by
  decide

/-! ## Profiling session (`snapsync.rs`) -/

/-- The fields of `SnapSyncProfileOptions` the session logic reads;
`json_out : Option<PathBuf>` as `Option String`.  DB-directory creation,
cleanup and `--keep-db` retention affect only the working directories and
are not modelled. -/
structure SnapSyncProfileOptions where
  dataset : String
  backend : String
  «repeat» : ℕ
  warmup : ℕ
  json_out : Option String
  json_stdout : Bool

/-- The result of one `run_once_with_opts` call (spec §9 capability
`run_once`): three phase durations and the computed state root. -/
structure RunResult where
  insert_accounts_duration : ℚ
  insert_storages_duration : ℚ
  total_duration : ℚ
  computed_state_root : ℕ

/-- Rust `format!("{:?}", root)` for an `H256` root, modelled by an
injective rendering. -/
def renderRoot (root : ℕ) : String := "0x" ++ toString root

/-- The fatal errors `run_profile` returns, with the values their
`eyre::eyre!` messages carry. -/
inductive ProfileError where
  | nonDeterministicRoot (runNumber : ℕ) (newRoot prevRoot : ℕ)
  | rootMismatch (computed expected : ℕ)
deriving DecidableEq

/-- The observable ordered events of one session: each executed pass, and
each JSON artifact emitted.  The final `Except` value of the session is
surfaced only after every recorded event. -/
inductive ProfileEvent where
  | passRun (i : ℕ)
  | reportWritten (path : String) (r : SnapProfileReportV1)
  | reportPrinted (r : SnapProfileReportV1)
deriving DecidableEq

/-- What a session leaves behind: its event trace and its return value. -/
structure ProfileOutcome where
  events : List ProfileEvent
  result : Except ProfileError Unit
deriving DecidableEq

/-- The loop-carried state of `run_profile`'s pass loop (`snapsync.rs`
lines 54-58 plus the event trace). -/
structure LoopState where
  insert_accounts_durations : List ℚ
  insert_storages_durations : List ℚ
  total_durations : List ℚ
  last_state_root : Option ℕ
  run_entries : List RunEntry
  events : List ProfileEvent

def initLoopState : LoopState := ⟨[], [], [], none, [], []⟩

/-- The `RunEntry` pushed for pass `i` (`snapsync.rs` lines 105-112). -/
def mkRunEntry (i warmup : ℕ) (result : RunResult) : RunEntry :=
  { index := i,
    is_warmup := decide (i < warmup),
    insert_accounts_secs := result.insert_accounts_duration,
    insert_storages_secs := result.insert_storages_duration,
    total_secs := result.total_duration,
    state_root := renderRoot result.computed_state_root }

/-- Recording of a completed pass: push the entry, remember the root, and
collect the durations when the pass is measured (lines 98-118). -/
def recordPass (st : LoopState) (i warmup : ℕ) (result : RunResult) : LoopState :=
  { st with
    run_entries := st.run_entries ++ [mkRunEntry i warmup result],
    last_state_root := some result.computed_state_root,
    insert_accounts_durations :=
      if i < warmup then st.insert_accounts_durations
      else st.insert_accounts_durations ++ [result.insert_accounts_duration],
    insert_storages_durations :=
      if i < warmup then st.insert_storages_durations
      else st.insert_storages_durations ++ [result.insert_storages_duration],
    total_durations :=
      if i < warmup then st.total_durations
      else st.total_durations ++ [result.total_duration] }

/-- The pass loop of `run_profile` (`snapsync.rs` lines 62-139): run pass
`i`, compare its root with the previous pass's root and abort on a
mismatch, otherwise record the pass and continue.  `remaining` counts the
passes still to run. -/
def profileLoop (runOnce : ℕ → RunResult) (warmup : ℕ) :
    (remaining i : ℕ) → LoopState → LoopState × Option ProfileError
  | 0, _, st => (st, none)
  | remaining + 1, i, st =>
    let result := runOnce i
    let st1 := { st with events := st.events ++ [ProfileEvent.passRun i] }
    match st.last_state_root with
    | some prev =>
      if prev ≠ result.computed_state_root then
        (st1, some (.nonDeterministicRoot (i + 1) result.computed_state_root prev))
      else
        profileLoop runOnce warmup remaining (i + 1) (recordPass st1 i warmup result)
    | none =>
      profileLoop runOnce warmup remaining (i + 1) (recordPass st1 i warmup result)

/-- Environment values `run_profile` bakes into the report: the manifest
hash computed from the manifest file, and the tool's version and git
sha (`CARGO_PKG_VERSION` / `GIT_SHA`). -/
structure ProfileEnv where
  manifest_sha256 : String
  version : String
  git_sha : String

/-- `computed_root_str` of `run_profile` (lines 150-164). -/
def computedRootStr (st : LoopState) : String :=
  match st.last_state_root with
  | some root => renderRoot root
  | none => "none"

/-- `root_matches` of `run_profile` (lines 150-166). -/
def rootMatchesOf (st : LoopState) (manifest : Manifest) : Bool :=
  match st.last_state_root with
  | some root => decide (root = manifest.post_accounts_insert_state_root)
  | none => false

/-- The `SnapProfileReportV1` value `run_profile` builds when a JSON
artifact was requested (`snapsync.rs` lines 187-216). -/
def buildReport (sqrtFn : ℚ → ℚ) (opts : SnapSyncProfileOptions) (env : ProfileEnv)
    (manifest : Manifest) (st : LoopState) : SnapProfileReportV1 :=
  { schema_version := 1,
    tool := { name := "ethrex-replay", version := env.version, git_sha := env.git_sha },
    dataset := { path := opts.dataset, manifest_sha256 := env.manifest_sha256,
                 chain_id := manifest.chain_id, pivot_block := manifest.pivot.number },
    config := { backend := opts.backend, «repeat» := opts.«repeat»,
                warmup := opts.warmup },
    runs := st.run_entries,
    summary :=
      { insert_accounts := PhaseStats.from_durations sqrtFn st.insert_accounts_durations,
        insert_storages := PhaseStats.from_durations sqrtFn st.insert_storages_durations,
        total := PhaseStats.from_durations sqrtFn st.total_durations },
    root_validation := { computed := computedRootStr st,
                         expected := renderRoot manifest.post_accounts_insert_state_root,
                         «matches» := rootMatchesOf st manifest } }

/-- `run_profile` (`snapsync.rs` lines 36-238) with `load_manifest`, the
backend parse and the timed engine abstracted as inputs: run all
`warmup + repeat` passes (aborting on a cross-pass root mismatch), then
validate the last root, emit the JSON artifacts when requested, and only
then surface a final-root mismatch as the return value. -/
def run_profile (sqrtFn : ℚ → ℚ) (opts : SnapSyncProfileOptions) (env : ProfileEnv)
    (manifest : Manifest) (runOnce : ℕ → RunResult) : ProfileOutcome :=
  let total_runs := opts.warmup + opts.«repeat»
  let loopOut := profileLoop runOnce opts.warmup total_runs 0 initLoopState
  let st := loopOut.1
  match loopOut.2 with
  | some e => { events := st.events, result := .error e }
  | none =>
    let events :=
      if opts.json_out.isSome || opts.json_stdout then
        let report := buildReport sqrtFn opts env manifest st
        st.events ++
          (match opts.json_out with
           | some p => [ProfileEvent.reportWritten p report]
           | none => []) ++
          (if opts.json_stdout then [ProfileEvent.reportPrinted report] else [])
      else st.events
    { events := events,
      result :=
        if !rootMatchesOf st manifest && st.last_state_root.isSome then
          .error (.rootMismatch (st.last_state_root.getD 0)
            manifest.post_accounts_insert_state_root)
        else .ok () }

/-- When every pass in the window produces the same root as its
predecessor, the loop completes all passes, recording every pass's entry
and event and collecting exactly the measured (non-warmup) durations. -/
lemma profileLoop_no_mismatch (runOnce : ℕ → RunResult) (warmup : ℕ) :
    ∀ (remaining i : ℕ) (st : LoopState),
      (0 < remaining →
        st.last_state_root = none ∨
          st.last_state_root = some ((runOnce i).computed_state_root)) →
      (∀ j, i ≤ j → j + 1 < i + remaining →
        (runOnce (j + 1)).computed_state_root = (runOnce j).computed_state_root) →
      profileLoop runOnce warmup remaining i st =
        ({ insert_accounts_durations := st.insert_accounts_durations ++
             (((List.range' i remaining).filter (fun j => !decide (j < warmup))).map
               (fun j => (runOnce j).insert_accounts_duration)),
           insert_storages_durations := st.insert_storages_durations ++
             (((List.range' i remaining).filter (fun j => !decide (j < warmup))).map
               (fun j => (runOnce j).insert_storages_duration)),
           total_durations := st.total_durations ++
             (((List.range' i remaining).filter (fun j => !decide (j < warmup))).map
               (fun j => (runOnce j).total_duration)),
           last_state_root :=
             if remaining = 0 then st.last_state_root
             else some ((runOnce (i + remaining - 1)).computed_state_root),
           run_entries := st.run_entries ++
             (List.range' i remaining).map (fun j => mkRunEntry j warmup (runOnce j)),
           events := st.events ++
             (List.range' i remaining).map (fun j => ProfileEvent.passRun j) }, none) := by
  intro remaining
  induction remaining with
  | zero =>
    intro i st _ _
    obtain ⟨a, b, c, d, e, f⟩ := st
    simp [profileLoop]
  | succ rem ih =>
    intro i st hlast hconst
    have hrec : profileLoop runOnce warmup (rem + 1) i st =
        profileLoop runOnce warmup rem (i + 1)
          (recordPass { st with events := st.events ++ [ProfileEvent.passRun i] }
            i warmup (runOnce i)) := by
      rcases hlast (Nat.succ_pos rem) with hl | hl <;>
        simp [profileLoop, hl]
    rw [hrec]
    set st' := recordPass { st with events := st.events ++ [ProfileEvent.passRun i] }
      i warmup (runOnce i) with hst'
    have hlast' : 0 < rem →
        st'.last_state_root = none ∨
          st'.last_state_root = some ((runOnce (i + 1)).computed_state_root) := by
      intro hrem
      right
      have : (runOnce (i + 1)).computed_state_root = (runOnce i).computed_state_root :=
        hconst i le_rfl (by omega)
      simp [hst', recordPass, this]
    have hconst' : ∀ j, i + 1 ≤ j → j + 1 < (i + 1) + rem →
        (runOnce (j + 1)).computed_state_root = (runOnce j).computed_state_root := by
      intro j h1 h2
      exact hconst j (by omega) (by omega)
    rw [ih (i + 1) st' hlast' hconst']
    obtain ⟨a, b, c, d, e, f⟩ := st
    simp only [hst', recordPass, mkRunEntry, List.range'_succ, List.filter_cons,
      List.map_cons, Prod.mk.injEq, and_true]
    by_cases hw : i < warmup <;>
      simp [hw, List.append_assoc] <;>
      intro h <;> subst h <;> simp

/-- A pass whose root differs from the previous pass's root aborts the
loop at once: the failing pass is the last event and the error carries
the 1-based run number and both roots. -/
lemma profileLoop_mismatch_step (runOnce : ℕ → RunResult) (warmup remaining i : ℕ)
    (st : LoopState) (prev : ℕ) (hb : st.last_state_root = some prev)
    (hne : prev ≠ (runOnce i).computed_state_root) :
    profileLoop runOnce warmup (remaining + 1) i st =
      ({ st with events := st.events ++ [ProfileEvent.passRun i] },
        some (.nonDeterministicRoot (i + 1) ((runOnce i).computed_state_root) prev)) := by
  simp [profileLoop, hb, hne]

/-- Splitting the loop: running `a + b` passes first runs `a` passes, and
continues with the remaining `b` only when those `a` all succeeded. -/
lemma profileLoop_split_ok (runOnce : ℕ → RunResult) (warmup : ℕ) :
    ∀ (a b i : ℕ) (st : LoopState),
      (profileLoop runOnce warmup a i st).2 = none →
      profileLoop runOnce warmup (a + b) i st =
        profileLoop runOnce warmup b (i + a) (profileLoop runOnce warmup a i st).1 := by
  intro a
  induction a with
  | zero =>
    intro b i st _
    simp [profileLoop]
  | succ n ih =>
    intro b i st hok
    have harith : n + 1 + b = (n + b) + 1 := by omega
    rw [harith]
    cases hd : st.last_state_root with
    | none =>
      have hL : profileLoop runOnce warmup ((n + b) + 1) i st =
          profileLoop runOnce warmup (n + b) (i + 1)
            (recordPass { st with events := st.events ++ [ProfileEvent.passRun i] }
              i warmup (runOnce i)) := by
        simp [profileLoop, hd]
      have hR : profileLoop runOnce warmup (n + 1) i st =
          profileLoop runOnce warmup n (i + 1)
            (recordPass { st with events := st.events ++ [ProfileEvent.passRun i] }
              i warmup (runOnce i)) := by
        simp [profileLoop, hd]
      rw [hR] at hok
      rw [hL, hR, ih b (i + 1) _ hok]
      have : i + 1 + n = i + (n + 1) := by omega
      rw [this]
    | some prev =>
      by_cases hne : prev = (runOnce i).computed_state_root
      · have hL : profileLoop runOnce warmup ((n + b) + 1) i st =
            profileLoop runOnce warmup (n + b) (i + 1)
              (recordPass { st with events := st.events ++ [ProfileEvent.passRun i] }
                i warmup (runOnce i)) := by
          simp [profileLoop, hd, hne]
        have hR : profileLoop runOnce warmup (n + 1) i st =
            profileLoop runOnce warmup n (i + 1)
              (recordPass { st with events := st.events ++ [ProfileEvent.passRun i] }
                i warmup (runOnce i)) := by
          simp [profileLoop, hd, hne]
        rw [hR] at hok
        rw [hL, hR, ih b (i + 1) _ hok]
        have : i + 1 + n = i + (n + 1) := by omega
        rw [this]
      · exfalso
        rw [profileLoop_mismatch_step runOnce warmup n i st prev hd hne] at hok
        simp at hok

/-- C3: when the first cross-pass root mismatch happens at pass `k+1`
(every earlier pass, warmup or measured, reproduced its predecessor's
root), the session aborts immediately with the non-deterministic-root
error: the event trace holds exactly passes `0 .. k+1` — no later pass
runs and no report is written or printed — and the surfaced error is the
cross-pass mismatch, so manifest root validation is never reached. -/
theorem profile_aborts_on_nondeterministic_root
    (sqrtFn : ℚ → ℚ) (opts : SnapSyncProfileOptions) (env : ProfileEnv)
    (manifest : Manifest) (runOnce : ℕ → RunResult) (k : ℕ)
    (hwin : k + 1 < opts.warmup + opts.«repeat»)
    (hfirst : ∀ j, j < k →
      (runOnce (j + 1)).computed_state_root = (runOnce j).computed_state_root)
    (hmis : (runOnce (k + 1)).computed_state_root ≠ (runOnce k).computed_state_root) :
    (run_profile sqrtFn opts env manifest runOnce).events =
      (List.range (k + 2)).map ProfileEvent.passRun ∧
    (run_profile sqrtFn opts env manifest runOnce).result =
      .error (.nonDeterministicRoot (k + 2) ((runOnce (k + 1)).computed_state_root)
        ((runOnce k).computed_state_root)) := by
  have hA := profileLoop_no_mismatch runOnce opts.warmup (k + 1) 0 initLoopState
    (fun _ => Or.inl rfl)
    (fun j _ hj => hfirst j (by omega))
  have hok : (profileLoop runOnce opts.warmup (k + 1) 0 initLoopState).2 = none := by
    rw [hA]
  obtain ⟨r, hr⟩ : ∃ r, opts.warmup + opts.«repeat» - (k + 1) = r + 1 :=
    ⟨opts.warmup + opts.«repeat» - (k + 1) - 1, by omega⟩
  have htot : opts.warmup + opts.«repeat» = (k + 1) + (r + 1) := by omega
  have hsplit := profileLoop_split_ok runOnce opts.warmup (k + 1) (r + 1) 0 initLoopState hok
  simp only [Nat.zero_add] at hsplit
  have hlast1 : (profileLoop runOnce opts.warmup (k + 1) 0 initLoopState).1.last_state_root =
      some ((runOnce k).computed_state_root) := by
    rw [hA]; simp
  have hstep := profileLoop_mismatch_step runOnce opts.warmup r (k + 1)
    (profileLoop runOnce opts.warmup (k + 1) 0 initLoopState).1
    ((runOnce k).computed_state_root) hlast1 (Ne.symm hmis)
  have hev : (profileLoop runOnce opts.warmup (k + 1) 0 initLoopState).1.events =
      (List.range (k + 1)).map ProfileEvent.passRun := by
    rw [hA]; simp [initLoopState, List.range_eq_range']
  have hfull : profileLoop runOnce opts.warmup (opts.warmup + opts.«repeat») 0 initLoopState =
      ({ (profileLoop runOnce opts.warmup (k + 1) 0 initLoopState).1 with
          events := (profileLoop runOnce opts.warmup (k + 1) 0 initLoopState).1.events ++
            [ProfileEvent.passRun (k + 1)] },
        some (.nonDeterministicRoot (k + 2) ((runOnce (k + 1)).computed_state_root)
          ((runOnce k).computed_state_root))) := by
    rw [htot, hsplit, hstep]
  refine ⟨?_, ?_⟩
  · simp only [run_profile, hfull]
    rw [hev]
    simp [List.range_succ]
  · simp only [run_profile, hfull]

/-- Witness for C3 at a concrete session: two measured passes whose roots
are 0 and 1 abort with the non-deterministic-root error after pass 2,
leaving only the two pass events. -/
theorem profile_aborts_on_nondeterministic_root_witness :
    (run_profile id
        { dataset := "ds", backend := "inmemory", «repeat» := 2, warmup := 0,
          json_out := none, json_stdout := false }
        { manifest_sha256 := "sha", version := "0.1.0", git_sha := "g" }
        { version := 1, chain_id := 1, pivot := ⟨1, 2, 3, 4⟩,
          post_accounts_insert_state_root := 0, paths := ⟨"a", "b"⟩ }
        (fun i => ⟨1, 1, 1, i⟩)).events =
      (List.range 2).map ProfileEvent.passRun ∧
    (run_profile id
        { dataset := "ds", backend := "inmemory", «repeat» := 2, warmup := 0,
          json_out := none, json_stdout := false }
        { manifest_sha256 := "sha", version := "0.1.0", git_sha := "g" }
        { version := 1, chain_id := 1, pivot := ⟨1, 2, 3, 4⟩,
          post_accounts_insert_state_root := 0, paths := ⟨"a", "b"⟩ }
        (fun i => ⟨1, 1, 1, i⟩)).result =
      .error (.nonDeterministicRoot 2 1 0) :=
  profile_aborts_on_nondeterministic_root id
    { dataset := "ds", backend := "inmemory", «repeat» := 2, warmup := 0,
      json_out := none, json_stdout := false }
    { manifest_sha256 := "sha", version := "0.1.0", git_sha := "g" }
    { version := 1, chain_id := 1, pivot := ⟨1, 2, 3, 4⟩,
      post_accounts_insert_state_root := 0, paths := ⟨"a", "b"⟩ }
    (fun i => ⟨1, 1, 1, i⟩) 0 (by decide)
    (fun j hj => absurd hj (by omega)) (by decide)

/-- The loop state after a complete, root-consistent session of `total`
passes: every pass's entry and event in order, the measured (non-warmup)
durations, and the last pass's root. -/
def finalLoopState (runOnce : ℕ → RunResult) (warmup total : ℕ) : LoopState :=
  { insert_accounts_durations :=
      ((List.range total).filter (fun j => !decide (j < warmup))).map
        (fun j => (runOnce j).insert_accounts_duration),
    insert_storages_durations :=
      ((List.range total).filter (fun j => !decide (j < warmup))).map
        (fun j => (runOnce j).insert_storages_duration),
    total_durations :=
      ((List.range total).filter (fun j => !decide (j < warmup))).map
        (fun j => (runOnce j).total_duration),
    last_state_root := some ((runOnce (total - 1)).computed_state_root),
    run_entries := (List.range total).map (fun j => mkRunEntry j warmup (runOnce j)),
    events := (List.range total).map ProfileEvent.passRun }

/-- With cross-pass-consistent roots and at least one pass, the loop
completes and its final state is `finalLoopState`. -/
lemma profileLoop_complete (runOnce : ℕ → RunResult) (warmup total : ℕ)
    (hne0 : total ≠ 0)
    (hconst : ∀ j, j + 1 < total →
      (runOnce (j + 1)).computed_state_root = (runOnce j).computed_state_root) :
    profileLoop runOnce warmup total 0 initLoopState =
      (finalLoopState runOnce warmup total, none) := by
  rw [profileLoop_no_mismatch runOnce warmup total 0 initLoopState
    (fun _ => Or.inl rfl) (fun j _ hj => hconst j (by omega))]
  simp [finalLoopState, initLoopState, ← List.range_eq_range', hne0]

/-- C4: when every pass completed with a consistent root, a JSON artifact
was requested, and the final root differs from the manifest's expected
root, the report artifacts are emitted into the trace (after the pass
events, before the return value is surfaced), and the session still
returns the root-mismatch failure. -/
theorem profile_emits_report_before_root_mismatch
    (sqrtFn : ℚ → ℚ) (opts : SnapSyncProfileOptions) (env : ProfileEnv)
    (manifest : Manifest) (runOnce : ℕ → RunResult)
    (htot : 0 < opts.warmup + opts.«repeat»)
    (hconst : ∀ j, j + 1 < opts.warmup + opts.«repeat» →
      (runOnce (j + 1)).computed_state_root = (runOnce j).computed_state_root)
    (hjson : opts.json_out.isSome = true ∨ opts.json_stdout = true)
    (hmis : (runOnce (opts.warmup + opts.«repeat» - 1)).computed_state_root ≠
      manifest.post_accounts_insert_state_root) :
    ∃ tail,
      (run_profile sqrtFn opts env manifest runOnce).events =
        (List.range (opts.warmup + opts.«repeat»)).map ProfileEvent.passRun ++ tail ∧
      tail ≠ [] ∧
      (∀ e ∈ tail,
        (∃ p, e = ProfileEvent.reportWritten p (buildReport sqrtFn opts env manifest
          (finalLoopState runOnce opts.warmup (opts.warmup + opts.«repeat»)))) ∨
        e = ProfileEvent.reportPrinted (buildReport sqrtFn opts env manifest
          (finalLoopState runOnce opts.warmup (opts.warmup + opts.«repeat»)))) ∧
      (run_profile sqrtFn opts env manifest runOnce).result =
        .error (.rootMismatch
          ((runOnce (opts.warmup + opts.«repeat» - 1)).computed_state_root)
          manifest.post_accounts_insert_state_root) := by
  have hne0 : opts.warmup + opts.«repeat» ≠ 0 := by omega
  have hC := profileLoop_complete runOnce opts.warmup (opts.warmup + opts.«repeat») hne0 hconst
  have hcond : (opts.json_out.isSome || opts.json_stdout) = true := by
    rcases hjson with h | h <;> simp [h]
  have hrm : rootMatchesOf
      (finalLoopState runOnce opts.warmup (opts.warmup + opts.«repeat»)) manifest = false := by
    simp [rootMatchesOf, finalLoopState, hmis]
  refine ⟨(match opts.json_out with
      | some p => [ProfileEvent.reportWritten p (buildReport sqrtFn opts env manifest
          (finalLoopState runOnce opts.warmup (opts.warmup + opts.«repeat»)))]
      | none => []) ++
    (if opts.json_stdout then [ProfileEvent.reportPrinted (buildReport sqrtFn opts env manifest
        (finalLoopState runOnce opts.warmup (opts.warmup + opts.«repeat»)))] else []),
    ?_, ?_, ?_, ?_⟩
  · simp only [run_profile, hC, hcond, if_true]
    simp [finalLoopState, List.append_assoc]
  · rcases hjo : opts.json_out with _ | p
    · have hjs : opts.json_stdout = true := by
        rcases hjson with h | h
        · rw [hjo] at h; simp at h
        · exact h
      simp [hjs]
    · simp
  · intro e he
    rcases List.mem_append.mp he with he | he
    · rcases hjo : opts.json_out with _ | p <;> rw [hjo] at he
      · simp at he
      · simp only [List.mem_singleton] at he
        exact Or.inl ⟨p, he⟩
    · by_cases hjs : opts.json_stdout
      · rw [if_pos hjs] at he
        simp only [List.mem_singleton] at he
        exact Or.inr he
      · rw [if_neg hjs] at he
        simp at he
  · simp only [run_profile, hC]
    simp [finalLoopState, rootMatchesOf, hmis]

/-- A concrete one-pass session whose computed root 7 differs from the
manifest's expected root 8, with JSON-to-stdout requested. -/
def witOpts : SnapSyncProfileOptions :=
  { dataset := "ds", backend := "inmemory", «repeat» := 1, warmup := 0,
    json_out := none, json_stdout := true }

def witEnv : ProfileEnv := { manifest_sha256 := "sha", version := "0.1.0", git_sha := "g" }

def witManifest : Manifest :=
  { version := 1, chain_id := 1, pivot := ⟨1, 2, 3, 4⟩,
    post_accounts_insert_state_root := 8, paths := ⟨"a", "b"⟩ }

def witRun : ℕ → RunResult := fun _ => ⟨1, 1, 1, 7⟩

/-- Witness for C4 at the concrete one-pass session. -/
theorem profile_emits_report_before_root_mismatch_witness :
    ∃ tail,
      (run_profile id witOpts witEnv witManifest witRun).events =
        (List.range (witOpts.warmup + witOpts.«repeat»)).map ProfileEvent.passRun ++ tail ∧
      tail ≠ [] ∧
      (∀ e ∈ tail,
        (∃ p, e = ProfileEvent.reportWritten p (buildReport id witOpts witEnv witManifest
          (finalLoopState witRun witOpts.warmup (witOpts.warmup + witOpts.«repeat»)))) ∨
        e = ProfileEvent.reportPrinted (buildReport id witOpts witEnv witManifest
          (finalLoopState witRun witOpts.warmup (witOpts.warmup + witOpts.«repeat»)))) ∧
      (run_profile id witOpts witEnv witManifest witRun).result =
        .error (.rootMismatch
          ((witRun (witOpts.warmup + witOpts.«repeat» - 1)).computed_state_root)
          witManifest.post_accounts_insert_state_root) :=
  profile_emits_report_before_root_mismatch id witOpts witEnv witManifest witRun
    (by decide) (fun j hj => absurd hj (by simp [witOpts]))
    (Or.inr (by decide)) (by decide)

/-- C8: when a session completes its passes with consistent roots and a
JSON artifact is requested, the emitted report's `runs` list records
every pass in order — warmup and measured alike, each carrying its
warmup flag — while every `PhaseStats` of the summary is computed only
from the measured (non-warmup) passes' durations. -/
theorem profile_report_records_all_passes_measures_non_warmup
    (sqrtFn : ℚ → ℚ) (opts : SnapSyncProfileOptions) (env : ProfileEnv)
    (manifest : Manifest) (runOnce : ℕ → RunResult)
    (htot : 0 < opts.warmup + opts.«repeat»)
    (hconst : ∀ j, j + 1 < opts.warmup + opts.«repeat» →
      (runOnce (j + 1)).computed_state_root = (runOnce j).computed_state_root)
    (hjs : opts.json_stdout = true) :
    ∃ rep, ProfileEvent.reportPrinted rep ∈
        (run_profile sqrtFn opts env manifest runOnce).events ∧
      rep.runs = (List.range (opts.warmup + opts.«repeat»)).map
        (fun j => mkRunEntry j opts.warmup (runOnce j)) ∧
      (∀ j, (mkRunEntry j opts.warmup (runOnce j)).is_warmup = decide (j < opts.warmup)) ∧
      rep.summary.insert_accounts = PhaseStats.from_durations sqrtFn
        (((List.range (opts.warmup + opts.«repeat»)).filter
          (fun j => !decide (j < opts.warmup))).map
            (fun j => (runOnce j).insert_accounts_duration)) ∧
      rep.summary.insert_storages = PhaseStats.from_durations sqrtFn
        (((List.range (opts.warmup + opts.«repeat»)).filter
          (fun j => !decide (j < opts.warmup))).map
            (fun j => (runOnce j).insert_storages_duration)) ∧
      rep.summary.total = PhaseStats.from_durations sqrtFn
        (((List.range (opts.warmup + opts.«repeat»)).filter
          (fun j => !decide (j < opts.warmup))).map
            (fun j => (runOnce j).total_duration)) := by
  have hne0 : opts.warmup + opts.«repeat» ≠ 0 := by omega
  have hC := profileLoop_complete runOnce opts.warmup (opts.warmup + opts.«repeat») hne0 hconst
  have hcond : (opts.json_out.isSome || opts.json_stdout) = true := by simp [hjs]
  refine ⟨buildReport sqrtFn opts env manifest
      (finalLoopState runOnce opts.warmup (opts.warmup + opts.«repeat»)),
    ?_, rfl, fun j => rfl, rfl, rfl, rfl⟩
  simp only [run_profile, hC, hcond, if_true, hjs]
  simp

/-- Witness for C8 at the concrete one-pass session. -/
theorem profile_report_records_all_passes_witness :
    ∃ rep, ProfileEvent.reportPrinted rep ∈
        (run_profile id witOpts witEnv witManifest witRun).events ∧
      rep.runs = (List.range (witOpts.warmup + witOpts.«repeat»)).map
        (fun j => mkRunEntry j witOpts.warmup (witRun j)) ∧
      (∀ j, (mkRunEntry j witOpts.warmup (witRun j)).is_warmup =
        decide (j < witOpts.warmup)) ∧
      rep.summary.insert_accounts = PhaseStats.from_durations id
        (((List.range (witOpts.warmup + witOpts.«repeat»)).filter
          (fun j => !decide (j < witOpts.warmup))).map
            (fun j => (witRun j).insert_accounts_duration)) ∧
      rep.summary.insert_storages = PhaseStats.from_durations id
        (((List.range (witOpts.warmup + witOpts.«repeat»)).filter
          (fun j => !decide (j < witOpts.warmup))).map
            (fun j => (witRun j).insert_storages_duration)) ∧
      rep.summary.total = PhaseStats.from_durations id
        (((List.range (witOpts.warmup + witOpts.«repeat»)).filter
          (fun j => !decide (j < witOpts.warmup))).map
            (fun j => (witRun j).total_duration)) :=
  profile_report_records_all_passes_measures_non_warmup id witOpts witEnv witManifest witRun
    (by decide) (fun j hj => rfl) (by decide)

/-- C10: with `warmup + repeat = 0` no pass runs and no root is ever
computed, yet `run_profile` returns success — the final root-mismatch
error fires only when at least one pass produced a root — and a requested
report records `root_validation.computed = "none"` and `matches = false`. -/
theorem profile_zero_passes_succeeds
    (sqrtFn : ℚ → ℚ) (opts : SnapSyncProfileOptions) (env : ProfileEnv)
    (manifest : Manifest) (runOnce : ℕ → RunResult)
    (hzero : opts.warmup + opts.«repeat» = 0)
    (hjs : opts.json_stdout = true) :
    (run_profile sqrtFn opts env manifest runOnce).result = .ok () ∧
    ∃ rep, ProfileEvent.reportPrinted rep ∈
        (run_profile sqrtFn opts env manifest runOnce).events ∧
      rep.root_validation.computed = "none" ∧
      rep.root_validation.«matches» = false := by
  have hC : profileLoop runOnce opts.warmup (opts.warmup + opts.«repeat») 0 initLoopState =
      (initLoopState, none) := by
    rw [hzero]
    rfl
  have hcond : (opts.json_out.isSome || opts.json_stdout) = true := by simp [hjs]
  constructor
  · simp only [run_profile, hC]
    simp [rootMatchesOf, initLoopState]
  · refine ⟨buildReport sqrtFn opts env manifest initLoopState, ?_, rfl, rfl⟩
    simp only [run_profile, hC, hcond, if_true, hjs]
    simp

/-- The zero-pass configuration for the C10 witness. -/
def witOptsZero : SnapSyncProfileOptions :=
  { dataset := "ds", backend := "inmemory", «repeat» := 0, warmup := 0,
    json_out := none, json_stdout := true }

/-- Witness for C10 at the concrete zero-pass session. -/
theorem profile_zero_passes_succeeds_witness :
    (run_profile id witOptsZero witEnv witManifest witRun).result = .ok () ∧
    ∃ rep, ProfileEvent.reportPrinted rep ∈
        (run_profile id witOptsZero witEnv witManifest witRun).events ∧
      rep.root_validation.computed = "none" ∧
      rep.root_validation.«matches» = false :=
  profile_zero_passes_succeeds id witOptsZero witEnv witManifest witRun
    (by decide) (by decide)

/-! ## Canonical JSON document of the profiling report

The report is persisted with `serde_json` through the derived
`Serialize`/`Deserialize` instances (`write_to_file` / `load_from_file`,
`snapsync/report.rs` lines 143-155).  serde itself is not part of this
repository, so the document format is modelled from the spec: §6 gives
the exact field layout of the schema-v1 report file.  JSON numbers are
exact rationals here, matching the `f64`-as-`ℚ` idealization. -/

/-- Modelled from the spec: a JSON document (§6), numbers as exact
rationals, objects as ordered field lists. -/
inductive Json where
  | null
  | bool (b : Bool)
  | num (q : ℚ)
  | str (s : String)
  | arr (xs : List Json)
  | obj (fields : List (String × Json))

/-- The first field with the given key, as a JSON-object deserializer
reads a struct field. -/
def findField : List (String × Json) → String → Option Json
  | [], _ => none
  | (k, v) :: rest, key => if k = key then some v else findField rest key

def Json.getField : Json → String → Option Json
  | .obj fields, key => findField fields key
  | _, _ => none

def Json.asStr : Json → Option String
  | .str s => some s
  | _ => none

def Json.asBool : Json → Option Bool
  | .bool b => some b
  | _ => none

def Json.asRat : Json → Option ℚ
  | .num q => some q
  | _ => none

/-- A JSON number read back as an unsigned integer. -/
def Json.asNat : Json → Option ℕ
  | .num q => if q.den = 1 ∧ 0 ≤ q.num then some q.num.toNat else none
  | _ => none

def Json.asArr : Json → Option (List Json)
  | .arr xs => some xs
  | _ => none

/-- Element-wise decoding of a JSON array. -/
def decodeList {α : Type} (g : Json → Option α) : List Json → Option (List α)
  | [] => some []
  | x :: rest => do
    let a ← g x
    let as ← decodeList g rest
    pure (a :: as)

/-- Modelled from the spec: `tool{name,version,git_sha}` (§6). -/
def ToolInfo.toJson (t : ToolInfo) : Json :=
  .obj [("name", .str t.name), ("version", .str t.version), ("git_sha", .str t.git_sha)]

def ToolInfo.fromJson (j : Json) : Option ToolInfo := do
  let name ← (j.getField "name").bind Json.asStr
  let version ← (j.getField "version").bind Json.asStr
  let git_sha ← (j.getField "git_sha").bind Json.asStr
  pure ⟨name, version, git_sha⟩

/-- Modelled from the spec:
`dataset{path,manifest_sha256,chain_id,pivot_block}` (§6). -/
def DatasetInfo.toJson (d : DatasetInfo) : Json :=
  .obj [("path", .str d.path), ("manifest_sha256", .str d.manifest_sha256),
    ("chain_id", .num (d.chain_id : ℚ)), ("pivot_block", .num (d.pivot_block : ℚ))]

def DatasetInfo.fromJson (j : Json) : Option DatasetInfo := do
  let path ← (j.getField "path").bind Json.asStr
  let manifest_sha256 ← (j.getField "manifest_sha256").bind Json.asStr
  let chain_id ← (j.getField "chain_id").bind Json.asNat
  let pivot_block ← (j.getField "pivot_block").bind Json.asNat
  pure ⟨path, manifest_sha256, chain_id, pivot_block⟩

/-- Modelled from the spec: `config{backend,repeat,warmup}` (§6). -/
def RunConfig.toJson (c : RunConfig) : Json :=
  .obj [("backend", .str c.backend), ("repeat", .num (c.«repeat» : ℚ)),
    ("warmup", .num (c.warmup : ℚ))]

def RunConfig.fromJson (j : Json) : Option RunConfig := do
  let backend ← (j.getField "backend").bind Json.asStr
  let r ← (j.getField "repeat").bind Json.asNat
  let warmup ← (j.getField "warmup").bind Json.asNat
  pure ⟨backend, r, warmup⟩

/-- Modelled from the spec: one `runs[...]` element (§6). -/
def RunEntry.toJson (e : RunEntry) : Json :=
  .obj [("index", .num (e.index : ℚ)), ("is_warmup", .bool e.is_warmup),
    ("insert_accounts_secs", .num e.insert_accounts_secs),
    ("insert_storages_secs", .num e.insert_storages_secs),
    ("total_secs", .num e.total_secs), ("state_root", .str e.state_root)]

def RunEntry.fromJson (j : Json) : Option RunEntry := do
  let index ← (j.getField "index").bind Json.asNat
  let is_warmup ← (j.getField "is_warmup").bind Json.asBool
  let a ← (j.getField "insert_accounts_secs").bind Json.asRat
  let s ← (j.getField "insert_storages_secs").bind Json.asRat
  let t ← (j.getField "total_secs").bind Json.asRat
  let state_root ← (j.getField "state_root").bind Json.asStr
  pure ⟨index, is_warmup, a, s, t, state_root⟩

/-- Modelled from the spec: a `PhaseStats` object (§6, §3). -/
def PhaseStats.toJson (p : PhaseStats) : Json :=
  .obj [("median_secs", .num p.median_secs), ("mean_secs", .num p.mean_secs),
    ("stddev_secs", .num p.stddev_secs), ("p95_secs", .num p.p95_secs),
    ("p99_secs", .num p.p99_secs), ("min_secs", .num p.min_secs),
    ("max_secs", .num p.max_secs)]

def PhaseStats.fromJson (j : Json) : Option PhaseStats := do
  let median ← (j.getField "median_secs").bind Json.asRat
  let mean ← (j.getField "mean_secs").bind Json.asRat
  let stddev ← (j.getField "stddev_secs").bind Json.asRat
  let p95 ← (j.getField "p95_secs").bind Json.asRat
  let p99 ← (j.getField "p99_secs").bind Json.asRat
  let mn ← (j.getField "min_secs").bind Json.asRat
  let mx ← (j.getField "max_secs").bind Json.asRat
  pure ⟨median, mean, stddev, p95, p99, mn, mx⟩

/-- Modelled from the spec:
`summary{insert_accounts,insert_storages,total}` (§6). -/
def PhaseSummary.toJson (s : PhaseSummary) : Json :=
  .obj [("insert_accounts", s.insert_accounts.toJson),
    ("insert_storages", s.insert_storages.toJson), ("total", s.total.toJson)]

def PhaseSummary.fromJson (j : Json) : Option PhaseSummary := do
  let a ← (j.getField "insert_accounts").bind PhaseStats.fromJson
  let s ← (j.getField "insert_storages").bind PhaseStats.fromJson
  let t ← (j.getField "total").bind PhaseStats.fromJson
  pure ⟨a, s, t⟩

/-- Modelled from the spec:
`root_validation{computed,expected,matches}` (§6). -/
def RootValidation.toJson (r : RootValidation) : Json :=
  .obj [("computed", .str r.computed), ("expected", .str r.expected),
    ("matches", .bool r.«matches»)]

def RootValidation.fromJson (j : Json) : Option RootValidation := do
  let computed ← (j.getField "computed").bind Json.asStr
  let expected ← (j.getField "expected").bind Json.asStr
  let m ← (j.getField "matches").bind Json.asBool
  pure ⟨computed, expected, m⟩

/-- Modelled from the spec: the canonical schema-v1 profiling report
document (§6), as `write_to_file` persists it. -/
def SnapProfileReportV1.toJson (r : SnapProfileReportV1) : Json :=
  .obj [("schema_version", .num (r.schema_version : ℚ)),
    ("tool", r.tool.toJson), ("dataset", r.dataset.toJson),
    ("config", r.config.toJson),
    ("runs", .arr (r.runs.map RunEntry.toJson)),
    ("summary", r.summary.toJson),
    ("root_validation", r.root_validation.toJson)]

/-- Modelled from the spec: the parse `load_from_file` performs on the
canonical document. -/
def SnapProfileReportV1.fromJson (j : Json) : Option SnapProfileReportV1 := do
  let v ← (j.getField "schema_version").bind Json.asNat
  let tool ← (j.getField "tool").bind ToolInfo.fromJson
  let dataset ← (j.getField "dataset").bind DatasetInfo.fromJson
  let config ← (j.getField "config").bind RunConfig.fromJson
  let runsJson ← (j.getField "runs").bind Json.asArr
  let runs ← decodeList RunEntry.fromJson runsJson
  let summary ← (j.getField "summary").bind PhaseSummary.fromJson
  let root_validation ← (j.getField "root_validation").bind RootValidation.fromJson
  pure ⟨v, tool, dataset, config, runs, summary, root_validation⟩

lemma asNat_natCast (n : ℕ) : Json.asNat (.num (n : ℚ)) = some n := by
  simp [Json.asNat]

lemma decodeList_roundtrip {α : Type} (f : α → Json) (g : Json → Option α)
    (h : ∀ a, g (f a) = some a) (xs : List α) : decodeList g (xs.map f) = some xs := by
  induction xs with
  | nil => rfl
  | cons a t ih => simp [decodeList, h, ih]

lemma toolInfo_roundtrip (t : ToolInfo) : ToolInfo.fromJson t.toJson = some t := by
  simp [ToolInfo.toJson, ToolInfo.fromJson, Json.getField, findField, Json.asStr]

lemma datasetInfo_roundtrip (d : DatasetInfo) : DatasetInfo.fromJson d.toJson = some d := by
  simp [DatasetInfo.toJson, DatasetInfo.fromJson, Json.getField, findField,
    Json.asStr, asNat_natCast]

lemma runConfig_roundtrip (c : RunConfig) : RunConfig.fromJson c.toJson = some c := by
  simp [RunConfig.toJson, RunConfig.fromJson, Json.getField, findField,
    Json.asStr, asNat_natCast]

lemma runEntry_roundtrip (e : RunEntry) : RunEntry.fromJson e.toJson = some e := by
  simp [RunEntry.toJson, RunEntry.fromJson, Json.getField, findField,
    Json.asStr, Json.asBool, Json.asRat, asNat_natCast]

lemma phaseStats_roundtrip (p : PhaseStats) : PhaseStats.fromJson p.toJson = some p := by
  simp [PhaseStats.toJson, PhaseStats.fromJson, Json.getField, findField, Json.asRat]

lemma phaseSummary_roundtrip (s : PhaseSummary) : PhaseSummary.fromJson s.toJson = some s := by
  simp [PhaseSummary.toJson, PhaseSummary.fromJson, Json.getField, findField,
    phaseStats_roundtrip]

lemma rootValidation_roundtrip (r : RootValidation) :
    RootValidation.fromJson r.toJson = some r := by
  simp [RootValidation.toJson, RootValidation.fromJson, Json.getField, findField,
    Json.asStr, Json.asBool]

/-- C9: serializing any `SnapProfileReportV1` to its canonical JSON
document and parsing it back yields a value equal to the original in
every field, including exact equality of every phase-statistic value
(round-trip law). -/
theorem report_json_roundtrip (r : SnapProfileReportV1) :
    SnapProfileReportV1.fromJson r.toJson = some r := by
  simp [SnapProfileReportV1.toJson, SnapProfileReportV1.fromJson, Json.getField,
    findField, Json.asArr, asNat_natCast, toolInfo_roundtrip, datasetInfo_roundtrip,
    runConfig_roundtrip, phaseSummary_roundtrip, rootValidation_roundtrip,
    decodeList_roundtrip RunEntry.toJson RunEntry.fromJson runEntry_roundtrip]
